import Mathlib

/-!
Shallow embedding of the YTDL-Nova-Suite frontend download workflow:
the URL validator and submit handlers of `DownloadForm`
(src/unnamed/part_001), the zustand download store
(src/unnamed/part_003), the `DownloadList` action buttons and the
`PlaylistPreview` batch builder
(src/frontend/src/components/features/PlaylistPreview.jsx), the
settings store and `SettingsPage` selects
(src/unnamed/part_002, src/frontend/src/pages/HistoryPage.jsx), and the
axios response interceptor with 429 retry/backoff
(src/frontend/src/services/api.js).
-/

namespace YTDLNova

/-- JavaScript line terminators, which the regex dot does not match. -/
def isLineTerminator (c : Char) : Bool :=
  c = '\n' || c = '\r' || c.toNat = 0x2028 || c.toNat = 0x2029

/-- Strip an exact literal from the front of a character list, returning
the remainder on success. -/
def dropLit : List Char → List Char → Option (List Char)
  | [], s => some s
  | _ :: _, [] => none
  | p :: ps, c :: cs => if c = p then dropLit ps cs else none

/-- True when the remainder after the scheme exists and starts with a
character the regex dot can match (at least one non-line-terminator). -/
def tailOk : Option (List Char) → Bool
  | some (c :: _) => !isLineTerminator c
  | _ => false

/-- The `validateUrl` of `DownloadForm` (src/unnamed/part_001 lines
101-104): the test of the regular expression
`\x5e https? : \/ \/ .+` (unanchored at the end) against the URL
string, i.e. an `http://` or `https://` prefix followed by at least one
non-line-terminator character. -/
def validateUrl (s : String) : Bool :=
  tailOk (dropLit "http://".data s.data) || tailOk (dropLit "https://".data s.data)

/-- The shell metacharacters named by the spec for the Security
Validator URL check: semicolon, pipe, ampersand, dollar, backtick,
backslash, newline, parentheses, braces, angle brackets. -/
def shellMetachars : List Char :=
  [';', '|', '&', '$', Char.ofNat 0x60, '\\', '\n', '(', ')',
   Char.ofNat 0x7B, Char.ofNat 0x7D, '<', '>']

/-- Whether a URL string contains any shell metacharacter. -/
def containsShellMeta (s : String) : Bool :=
  s.data.any (fun c => shellMetachars.contains c)

/-- The malformed URL used as the example in the spec. -/
def badUrl : String := "https://x.test/v?id=1;rm -rf /"

/-- One download record as the frontend store sees it (the fields read
or written by `DownloadList`, `handleCancel`, `handleRetry` and the
store actions). -/
structure Download where
  id : Nat
  status : String
  progress : Nat
  error_message : Option String
  title : String
  speed : Option String
  eta : Option String
  file_path : Option String
deriving DecidableEq, Repr

/-- A partial update object, as passed to `updateDownload(id, updates)`
in src/unnamed/part_003: each field is present (`some`) or absent
(`none`), mirroring which keys the JavaScript object carries. -/
structure DownloadUpdates where
  id : Option Nat := none
  status : Option String := none
  progress : Option Nat := none
  error_message : Option (Option String) := none
  title : Option String := none
  speed : Option (Option String) := none
  eta : Option (Option String) := none
  file_path : Option (Option String) := none
deriving DecidableEq, Repr

/-- The JavaScript object spread `\x7b ...d, ...updates \x7d`: a field
named in `updates` overrides, every other field is kept from `d`. -/
def applyUpdates (d : Download) (u : DownloadUpdates) : Download :=
  { id := u.id.getD d.id
    status := u.status.getD d.status
    progress := u.progress.getD d.progress
    error_message := u.error_message.getD d.error_message
    title := u.title.getD d.title
    speed := u.speed.getD d.speed
    eta := u.eta.getD d.eta
    file_path := u.file_path.getD d.file_path }

/-- The caller-visible state of the zustand download store
(src/unnamed/part_003): the `downloads` and `activeDownloads` lists. -/
structure StoreState where
  downloads : List Download
  activeDownloads : List Download
deriving DecidableEq, Repr

/-- Store action `setDownloads` (src/unnamed/part_003 line 11):
replaces the whole `downloads` list. -/
def setDownloads (ds : List Download) (st : StoreState) : StoreState :=
  { st with downloads := ds }

/-- Store action `addDownload` (src/unnamed/part_003 lines 15-17):
prepends the new download. -/
def addDownload (d : Download) (st : StoreState) : StoreState :=
  { st with downloads := d :: st.downloads }

/-- Store action `updateDownload` (src/unnamed/part_003 lines 19-26):
maps over both lists, spreading `updates` onto every entry whose id
matches. -/
def updateDownload (i : Nat) (u : DownloadUpdates) (st : StoreState) : StoreState :=
  { downloads := st.downloads.map (fun d => if d.id = i then applyUpdates d u else d)
    activeDownloads :=
      st.activeDownloads.map (fun d => if d.id = i then applyUpdates d u else d) }

/-- Store action `removeDownload` (src/unnamed/part_003 lines 28-31):
filters both lists, keeping the entries with a different id. -/
def removeDownload (i : Nat) (st : StoreState) : StoreState :=
  { downloads := st.downloads.filter (fun d => d.id != i)
    activeDownloads := st.activeDownloads.filter (fun d => d.id != i) }

/-- The update object `\x7b status: 'cancelled' \x7d` passed by
`handleCancel` (PlaylistPreview.jsx line 185). -/
def cancelledUpdate : DownloadUpdates := { status := some "cancelled" }

/-- The success path of `handleCancel` (PlaylistPreview.jsx lines
182-189): after `cancelDownload(id)` resolves, the store is updated
with status `cancelled` at once, with no poll in between. -/
def handleCancel (i : Nat) (st : StoreState) : StoreState :=
  updateDownload i cancelledUpdate st

/-- An update object carrying every field of a download record, which
is what `handleRetry` passes when it spreads the full response object
onto the matching entry. -/
def downloadToUpdates (d : Download) : DownloadUpdates :=
  { id := some d.id
    status := some d.status
    progress := some d.progress
    error_message := some d.error_message
    title := some d.title
    speed := some d.speed
    eta := some d.eta
    file_path := some d.file_path }

/-- Modelled from the spec: the backend retry endpoint
(`POST /api/downloads/id/retry`, whose implementation is not under
src/) re-queues the same Job in place, with the error cleared and
progress reset to 0, rather than creating a new Job. -/
def retryResponse (d : Download) : Download :=
  { d with status := "queued", progress := 0, error_message := none }

/-- The success path of `handleRetry` (PlaylistPreview.jsx lines
191-198): the retried record returned by the backend is applied to the
entry with the same id via `updateDownload`. -/
def handleRetry (d : Download) (st : StoreState) : StoreState :=
  updateDownload d.id (downloadToUpdates (retryResponse d)) st

/-- Whether `DownloadList` renders the Cancel button for a download of
the given status (PlaylistPreview.jsx lines 284-291). -/
def cancelOffered (status : String) : Bool :=
  status == "pending" || status == "processing"

/-- Whether `DownloadList` renders the Retry button for a download of
the given status (PlaylistPreview.jsx lines 293-300). -/
def retryOffered (status : String) : Bool :=
  status == "failed"

/-- The persisted settings store state (src/unnamed/part_002, zustand
persist slice), restricted to the fields the download form reads. -/
structure SettingsState where
  defaultDownloadType : String
  defaultQuality : String
  defaultVideoFormat : String
  defaultAudioFormat : String
  embedThumbnail : Bool
deriving DecidableEq, Repr

/-- The settings store initial values (src/unnamed/part_002 lines
93-99), also restored by `resetSettings`. -/
def defaultSettings : SettingsState :=
  { defaultDownloadType := "video"
    defaultQuality := "best"
    defaultVideoFormat := "mp4"
    defaultAudioFormat := "m4a"
    embedThumbnail := true }

/-- Option values of the SettingsPage Default Download Type select
(HistoryPage.jsx lines 179-180). -/
def settingsTypeOptions : List String := ["video", "audio"]

/-- Option values of the SettingsPage Default Video Quality select
(HistoryPage.jsx lines 191-195). -/
def settingsQualityOptions : List String := ["best", "1080p", "720p", "480p", "360p"]

/-- Option values of the SettingsPage Default Video Format select
(HistoryPage.jsx lines 206-208). -/
def settingsVideoFormatOptions : List String := ["mp4", "webm", "mkv"]

/-- Option values of the SettingsPage Default Audio Format select
(HistoryPage.jsx lines 219-222). -/
def settingsAudioFormatOptions : List String := ["m4a", "mp3", "opus", "vorbis"]

/-- The settings states reachable through the settings UI: the
defaults, and each setter applied with a value offered by the
corresponding SettingsPage select. -/
inductive SettingsReachable : SettingsState → Prop
  | init : SettingsReachable defaultSettings
  | setDefaultDownloadType {s t} : SettingsReachable s → t ∈ settingsTypeOptions →
      SettingsReachable { s with defaultDownloadType := t }
  | setDefaultQuality {s q} : SettingsReachable s → q ∈ settingsQualityOptions →
      SettingsReachable { s with defaultQuality := q }
  | setDefaultVideoFormat {s f} : SettingsReachable s → f ∈ settingsVideoFormatOptions →
      SettingsReachable { s with defaultVideoFormat := f }
  | setDefaultAudioFormat {s f} : SettingsReachable s → f ∈ settingsAudioFormatOptions →
      SettingsReachable { s with defaultAudioFormat := f }
  | setEmbedThumbnail {s} (b : Bool) : SettingsReachable s →
      SettingsReachable { s with embedThumbnail := b }
  | reset {s} : SettingsReachable s → SettingsReachable defaultSettings

/-- The `DownloadForm` state (src/unnamed/part_001), restricted to the
fields that flow into requests. -/
structure FormState where
  url : String
  downloadType : String
  quality : String
  videoFormat : String
  audioFormat : String
  embedThumbnail : Bool
deriving DecidableEq, Repr

/-- JavaScript `a or-else b` on strings: `b` when `a` is falsy (the
empty string), `a` otherwise. -/
def jsOr (a b : String) : String := if a = "" then b else a

/-- The initial `DownloadForm` state (src/unnamed/part_001 lines
12-29), restored from persisted settings with literal fallbacks. -/
def initForm (s : SettingsState) : FormState :=
  { url := ""
    downloadType := jsOr s.defaultDownloadType "video"
    quality := jsOr s.defaultQuality "best"
    videoFormat := jsOr s.defaultVideoFormat "mp4"
    audioFormat := jsOr s.defaultAudioFormat "m4a"
    embedThumbnail := s.embedThumbnail }

/-- Values settable for the form download type (the two toggle buttons,
src/unnamed/part_001 lines 399-420). -/
def formTypeOptions : List String := ["video", "audio"]

/-- Option values of the form Quality select (src/unnamed/part_001
lines 424-435). -/
def formQualityOptions : List String := ["best", "1080p", "720p", "480p"]

/-- Option values of the form Format select in video mode
(src/unnamed/part_001 lines 449-458). -/
def formVideoFormatOptions : List String :=
  ["mp4", "webm", "mkv", "mov", "avi", "wmv", "ogv"]

/-- Option values of the form Format select in audio mode
(src/unnamed/part_001 lines 459-465). -/
def formAudioFormatOptions : List String := ["m4a", "mp3", "opus"]

/-- The form states reachable through the download UI: an initial state
restored from a reachable settings state, plus each control applied
with a value its select or toggle offers. -/
inductive FormReachable : FormState → Prop
  | init {s} : SettingsReachable s → FormReachable (initForm s)
  | setUrl {st} (u : String) : FormReachable st → FormReachable { st with url := u }
  | setDownloadType {st t} : FormReachable st → t ∈ formTypeOptions →
      FormReachable { st with downloadType := t }
  | setQuality {st q} : FormReachable st → q ∈ formQualityOptions →
      FormReachable { st with quality := q }
  | setVideoFormat {st f} : FormReachable st → f ∈ formVideoFormatOptions →
      FormReachable { st with videoFormat := f }
  | setAudioFormat {st f} : FormReachable st → f ∈ formAudioFormatOptions →
      FormReachable { st with audioFormat := f }
  | setEmbedThumbnail {st} (b : Bool) : FormReachable st →
      FormReachable { st with embedThumbnail := b }

/-- The request body posted to the backend for one download. -/
structure DownloadRequest where
  url : String
  download_type : String
  quality : String
  format : String
  embed_thumbnail : Bool
deriving DecidableEq, Repr

/-- The single-download request built by `handleSubmit`
(src/unnamed/part_001 lines 284-298), with its literal or-else
fallbacks on every field. -/
def buildSingleRequest (st : FormState) : DownloadRequest :=
  { url := jsOr st.url ""
    download_type := jsOr st.downloadType "video"
    quality := jsOr st.quality "best"
    format := jsOr (if st.downloadType = "audio" then st.audioFormat else st.videoFormat)
                   (if st.downloadType = "audio" then "m4a" else "mp4")
    embed_thumbnail := if st.downloadType = "audio" then st.embedThumbnail else false }

/-- One batch request item built by `handleSubmit` in batch mode
(src/unnamed/part_001 lines 244-250), for one line `u` of the
textarea. -/
def buildBatchRequest (st : FormState) (u : String) : DownloadRequest :=
  { url := u.trim
    download_type := st.downloadType
    quality := st.quality
    format := if st.downloadType = "audio" then st.audioFormat else st.videoFormat
    embed_thumbnail := if st.downloadType = "audio" then st.embedThumbnail else false }

/-- One playlist-selection request built by `handleDownload` in
`PlaylistPreview` (PlaylistPreview.jsx lines 38-44), with the props
passed from `DownloadForm` (src/unnamed/part_001 lines 574-585). -/
def buildPlaylistRequest (st : FormState) (videoUrl : String) : DownloadRequest :=
  { url := videoUrl
    download_type := st.downloadType
    quality := st.quality
    format := if st.downloadType = "audio" then st.audioFormat else st.videoFormat
    embed_thumbnail := if st.downloadType = "audio" then st.embedThumbnail else false }

/-- Outcome of the single-download submit path. -/
inductive SubmitResult
  | rejected (msg : String)
  | submitted (req : DownloadRequest)
deriving DecidableEq, Repr

/-- The validation gate of `handleSubmit` for a single download
(src/unnamed/part_001 lines 264-300): an empty URL or a URL failing
`validateUrl` is rejected with an error message and nothing is posted;
otherwise the request is built and posted. -/
def handleSubmitSingle (st : FormState) : SubmitResult :=
  if st.url = "" then .rejected "Please enter a URL"
  else if validateUrl st.url = false then
    .rejected "Please enter a valid URL from a supported platform"
  else .submitted (buildSingleRequest st)

/-- Value of the maximal decimal digit prefix, `none` when there is no
leading digit. -/
def digitsVal (cs : List Char) : Option Nat :=
  match cs.takeWhile Char.isDigit with
  | [] => none
  | ds => some (ds.foldl (fun a c => a * 10 + (c.toNat - 48)) 0)

/-- JavaScript `parseInt(s, 10)`: skip leading whitespace, read an
optional sign and then the maximal decimal digit prefix; NaN (here
`none`) when no digit follows. -/
def parseIntJS (s : String) : Option Int :=
  let cs := s.data.dropWhile (fun c => c = ' ' || c = '\t' || c = '\n' || c = '\r')
  match cs with
  | '-' :: rest => (digitsVal rest).map (fun n => -(n : Int))
  | '+' :: rest => (digitsVal rest).map (fun n => (n : Int))
  | rest => (digitsVal rest).map (fun n => (n : Int))

/-- The mutable retry bookkeeping axios keeps on the request config:
`__retryCount`, absent on the first failure. -/
structure RetryConfig where
  retryCount : Option Nat
deriving DecidableEq, Repr

/-- The part of an error response the interceptor reads: the HTTP
status and the `Retry-After` header, when present. -/
structure ErrResponse where
  status : Nat
  retryAfterHeader : Option String
deriving DecidableEq, Repr

/-- An axios error as the response interceptor receives it: `config` is
absent for some synthetic errors, `response` is absent for network
errors. -/
structure AxiosError where
  config : Option RetryConfig
  response : Option ErrResponse
deriving DecidableEq, Repr

/-- What the interceptor decides to do with an error: re-issue the
request after a delay (with the incremented retry count), or propagate
the rejection to the caller. -/
inductive ErrDecision
  | retry (newCount delayMs : Nat)
  | reject
deriving DecidableEq, Repr

/-- The response error interceptor of src/frontend/src/services/api.js
lines 32-81: retry only when the config exists, the response status is
429 and fewer than `DEFAULT_MAX_RETRIES = 3` retries were already made;
the delay is exponential backoff `1000 * 2 ^ (k - 1)` ms for the k-th
retry, overridden by a truthy `Retry-After` header that parses to a
positive integer, plus a jitter of up to 299 ms; every other error is
rejected to the caller. -/
def handleResponseError (e : AxiosError) (jitter : Nat) : ErrDecision :=
  match e.config with
  | none => .reject
  | some cfg =>
    let rc := cfg.retryCount.getD 0
    match e.response with
    | none => .reject
    | some resp =>
      if resp.status = 429 ∧ rc < 3 then
        let rc2 := rc + 1
        let base := 1000 * 2 ^ (rc2 - 1)
        let delay :=
          match resp.retryAfterHeader with
          | none => base
          | some h =>
            if h = "" then base
            else
              match parseIntJS h with
              | none => base
              | some ra => if 0 < ra then ra.toNat * 1000 else base
        .retry rc2 (delay + jitter)
      else .reject

/-- The positive-integer reading of the `Retry-After` header that the
interceptor honors, `none` when the header is absent, empty,
unparseable or non-positive. -/
def retryAfterValue (resp : ErrResponse) : Option Nat :=
  match resp.retryAfterHeader with
  | none => none
  | some h =>
    if h = "" then none
    else
      match parseIntJS h with
      | none => none
      | some ra => if 0 < ra then some ra.toNat else none

/-- Number of attempts a request makes against a stream of per-attempt
error outcomes (each list element is the error of one attempt together
with that round's jitter); the stream ending means the attempt
succeeded or its rejection was final. -/
def runAttempts : Nat → List (ErrResponse × Nat) → Nat
  | _, [] => 1
  | rc, (resp, j) :: rest =>
    match handleResponseError ⟨some ⟨some rc⟩, some resp⟩ j with
    | .retry rc2 _ => 1 + runAttempts rc2 rest
    | .reject => 1

/-! Concrete states used by witnesses and counterexamples. -/

/-- A form state holding the spec example URL with the default
options. -/
def exFormBad : FormState :=
  { url := badUrl, downloadType := "video", quality := "best",
    videoFormat := "mp4", audioFormat := "m4a", embedThumbnail := true }

/-- A form state holding a string that fails the URL check. -/
def exFormNotUrl : FormState :=
  { url := "notaurl", downloadType := "video", quality := "best",
    videoFormat := "mp4", audioFormat := "m4a", embedThumbnail := true }

/-- A completed download record. -/
def exCompleted : Download :=
  { id := 1, status := "completed", progress := 100, error_message := none,
    title := "a", speed := none, eta := none, file_path := some "out.mp4" }

/-- A failed download record. -/
def exFailed : Download :=
  { id := 7, status := "failed", progress := 35, error_message := some "boom",
    title := "t", speed := some "1MiB/s", eta := some "00:10", file_path := none }

/-- A store holding the two example records. -/
def exStore : StoreState :=
  { downloads := [exFailed, exCompleted], activeDownloads := [exFailed] }

/-! Claim theorems. -/

/-- C1 counterexample: the spec example URL contains a shell
metacharacter, yet `validateUrl` accepts it and the submit handler
posts a download request for it, refuting the claim that validation
rejects every URL containing a shell metacharacter. -/
theorem c1_counterexample :
    containsShellMeta badUrl = true ∧ validateUrl badUrl = true ∧
    handleSubmitSingle exFormBad =
      SubmitResult.submitted
        { url := badUrl, download_type := "video", quality := "best",
          format := "mp4", embed_thumbnail := false } := by
  refine ⟨by decide, by decide, by decide⟩

/-- C1 amended: the URL validation applied at submission requires only
an http or https scheme prefix followed by a non-line-terminator
character; it applies no percent-decoding, Unicode normalization or
shell-metacharacter filtering, so every nonempty URL passing
`validateUrl` — including one containing shell metacharacters — is
submitted unchanged as the request URL. -/
theorem c1_url_validation_amended (st : FormState) (h1 : st.url ≠ "")
    (h2 : validateUrl st.url = true) :
    handleSubmitSingle st = SubmitResult.submitted (buildSingleRequest st) ∧
    (buildSingleRequest st).url = st.url := by
  constructor
  · unfold handleSubmitSingle
    rw [if_neg h1, h2]
    simp
  · show jsOr st.url "" = st.url
    unfold jsOr
    split
    · simp_all
    · rfl

/-- C1 witness: the amended theorem applied to the metacharacter URL
state, whose hypotheses hold concretely. -/
theorem c1_url_validation_amended_witness :
    handleSubmitSingle exFormBad = SubmitResult.submitted (buildSingleRequest exFormBad) ∧
    (buildSingleRequest exFormBad).url = exFormBad.url :=
  c1_url_validation_amended exFormBad (by decide) (by decide)

/-- C2 counterexample: the download list does not offer the cancel
operation for a job whose status is `queued` or `downloading`, though
both are non-terminal, refuting the claim that cancel is offered from
every non-terminal status. -/
theorem c2_counterexample :
    cancelOffered "queued" = false ∧ cancelOffered "downloading" = false := by
  decide

/-- C2 amended: the caller-facing download list offers cancel exactly
for the statuses `pending` and `processing`; in particular it is not
offered for the terminal statuses `completed`, `failed` and
`cancelled`, nor for `queued` or `downloading`. -/
theorem c2_cancel_offer_exact (s : String) :
    cancelOffered s = true ↔ (s = "pending" ∨ s = "processing") := by
  unfold cancelOffered
  simp

/-- C7 counterexample: the spec example URL is not rejected by the
validation applied at submission — `validateUrl` accepts it and the
submit handler posts a request for it — refuting the claim that this
URL is rejected and never submitted. -/
theorem c7_counterexample :
    validateUrl badUrl = true ∧
    handleSubmitSingle exFormBad =
      SubmitResult.submitted (buildSingleRequest exFormBad) := by
  refine ⟨by decide, by decide⟩

/-- C7 amended: URL validation is deterministic — validating equal
inputs yields equal outcomes — and every URL that `validateUrl`
rejects is never submitted; but the example URL passes the check (it
only requires an http or https prefix), so it is submitted rather than
rejected. -/
theorem c7_validation_deterministic_amended :
    (∀ s t : String, s = t → validateUrl s = validateUrl t) ∧
    (∀ st : FormState, validateUrl st.url = false →
      ∀ r : DownloadRequest, handleSubmitSingle st ≠ SubmitResult.submitted r) := by
  constructor
  · intro s t h
    rw [h]
  · intro st h r
    unfold handleSubmitSingle
    split <;> simp_all

/-- C7 witness: determinism at a concrete string, and a concrete
rejected URL that is never submitted. -/
theorem c7_validation_deterministic_amended_witness :
    validateUrl "notaurl" = validateUrl "notaurl" ∧
    handleSubmitSingle exFormNotUrl ≠
      SubmitResult.submitted (buildSingleRequest exFormNotUrl) :=
  ⟨c7_validation_deterministic_amended.1 "notaurl" "notaurl" rfl,
   c7_validation_deterministic_amended.2 exFormNotUrl (by decide)
     (buildSingleRequest exFormNotUrl)⟩

/-- Mapping an id-preserving function over a download list preserves
the list of ids. -/
lemma map_preserves_ids (f : Download → Download) (hf : ∀ d, (f d).id = d.id)
    (l : List Download) : (l.map f).map Download.id = l.map Download.id := by
  induction l with
  | nil => rfl
  | cons d t ih => simp [hf, ih]

/-- Spreading a full record over a download replaces it entirely. -/
lemma applyUpdates_full (x y : Download) :
    applyUpdates x (downloadToUpdates y) = y := rfl

/-- The per-entry function of `handleCancel` keeps every id. -/
lemma cancel_entry_id (i : Nat) (d : Download) :
    ((if d.id = i then applyUpdates d cancelledUpdate else d)).id = d.id := by
  split <;> rfl

/-- C4: issuing cancel marks the job cancelled immediately in the
caller-visible store — after the success path of `handleCancel`, every
entry with the cancelled id carries status `cancelled` in both the
`downloads` and `activeDownloads` lists, while the id lists of both are
unchanged; no subsequent poll is involved in this transition. -/
theorem c4_cancel_immediate (i : Nat) (st : StoreState) :
    ((handleCancel i st).downloads.map Download.id = st.downloads.map Download.id) ∧
    ((handleCancel i st).activeDownloads.map Download.id =
      st.activeDownloads.map Download.id) ∧
    (∀ e ∈ (handleCancel i st).downloads, e.id = i → e.status = "cancelled") ∧
    (∀ e ∈ (handleCancel i st).activeDownloads, e.id = i → e.status = "cancelled") := by
  have hmem : ∀ (l : List Download) (e : Download),
      e ∈ l.map (fun d => if d.id = i then applyUpdates d cancelledUpdate else d) →
      e.id = i → e.status = "cancelled" := by
    intro l e he hid
    rw [List.mem_map] at he
    obtain ⟨d, _, rfl⟩ := he
    by_cases h : d.id = i
    · rw [if_pos h]
      rfl
    · rw [if_neg h] at hid ⊢
      exact absurd hid h
  refine ⟨?_, ?_, ?_, ?_⟩
  · exact map_preserves_ids _ (cancel_entry_id i) st.downloads
  · exact map_preserves_ids _ (cancel_entry_id i) st.activeDownloads
  · exact hmem st.downloads
  · exact hmem st.activeDownloads

/-- C4 witness: cancelling id 7 in the example store. -/
theorem c4_cancel_immediate_witness :
    (∀ e ∈ (handleCancel 7 exStore).downloads, e.id = 7 → e.status = "cancelled") ∧
    (handleCancel 7 exStore).downloads.map Download.id =
      exStore.downloads.map Download.id :=
  ⟨(c4_cancel_immediate 7 exStore).2.2.1, (c4_cancel_immediate 7 exStore).1⟩

/-- The per-entry function of `handleRetry` keeps every id. -/
lemma retry_entry_id (d0 d : Download) :
    ((if d.id = d0.id then applyUpdates d (downloadToUpdates (retryResponse d0))
      else d)).id = d.id := by
  split
  · rename_i h
    rw [applyUpdates_full]
    exact h.symm ▸ rfl
  · rfl

/-- C3: retrying a failed job keeps the same identity — the id lists of
both store lists are unchanged, no entry is added or removed — and the
entry with the retried id is replaced in place by the retried record,
whose progress is 0 and whose error is cleared. -/
theorem c3_retry_same_identity (d : Download) (st : StoreState)
    (_h : d.status = "failed") :
    ((handleRetry d st).downloads.map Download.id = st.downloads.map Download.id) ∧
    ((handleRetry d st).activeDownloads.map Download.id =
      st.activeDownloads.map Download.id) ∧
    (∀ e ∈ (handleRetry d st).downloads, e.id = d.id →
      e = retryResponse d ∧ e.progress = 0 ∧ e.error_message = none) ∧
    (∀ e ∈ (handleRetry d st).activeDownloads, e.id = d.id →
      e = retryResponse d ∧ e.progress = 0 ∧ e.error_message = none) := by
  have hmem : ∀ (l : List Download) (e : Download),
      e ∈ l.map (fun x =>
        if x.id = d.id then applyUpdates x (downloadToUpdates (retryResponse d))
        else x) →
      e.id = d.id → e = retryResponse d ∧ e.progress = 0 ∧ e.error_message = none := by
    intro l e he hid
    rw [List.mem_map] at he
    obtain ⟨x, _, rfl⟩ := he
    by_cases hx : x.id = d.id
    · rw [if_pos hx, applyUpdates_full]
      exact ⟨rfl, rfl, rfl⟩
    · rw [if_neg hx] at hid ⊢
      exact absurd hid hx
  refine ⟨?_, ?_, ?_, ?_⟩
  · exact map_preserves_ids _ (retry_entry_id d) st.downloads
  · exact map_preserves_ids _ (retry_entry_id d) st.activeDownloads
  · exact hmem st.downloads
  · exact hmem st.activeDownloads

/-- C3 witness: retrying the concrete failed record in the example
store; its status hypothesis holds by evaluation. -/
theorem c3_retry_same_identity_witness :
    exFailed.status = "failed" ∧
    (handleRetry exFailed exStore).downloads.map Download.id =
      exStore.downloads.map Download.id ∧
    (∀ e ∈ (handleRetry exFailed exStore).downloads, e.id = exFailed.id →
      e = retryResponse exFailed ∧ e.progress = 0 ∧ e.error_message = none) :=
  ⟨by decide, (c3_retry_same_identity exFailed exStore (by decide)).1,
   (c3_retry_same_identity exFailed exStore (by decide)).2.2.1⟩

/-- C8 counterexample: `setDownloads`, the list-refresh action invoked
by the periodic `fetchDownloads`, replaces the `downloads` list
wholesale — applied with a server list missing an entry, it removes
that entry even though no delete was performed, refuting the claim
that no caller-visible operation other than delete removes entries. -/
theorem c8_counterexample :
    exCompleted ∈ exStore.downloads ∧
    (setDownloads [] exStore).downloads = [] := by
  refine ⟨by decide, rfl⟩

/-- C8 amended: among the per-item store operations, only the delete
action removes entries — `addDownload` keeps every existing entry and
`updateDownload` keeps the length of both lists — and a successful
delete of an id removes every entry with that id from both lists while
retaining every entry with a different id in its original order; the
list-refresh `setDownloads`, however, replaces the caller-visible list
with the server data and can drop entries. -/
theorem c8_delete_only_per_item_removal (i : Nat) (st : StoreState)
    (d : Download) (u : DownloadUpdates) :
    ((addDownload d st).downloads.length = st.downloads.length + 1 ∧
      ∀ e ∈ st.downloads, e ∈ (addDownload d st).downloads) ∧
    ((updateDownload i u st).downloads.length = st.downloads.length ∧
      (updateDownload i u st).activeDownloads.length = st.activeDownloads.length) ∧
    ((removeDownload i st).downloads.all (fun e => e.id != i) = true ∧
      (removeDownload i st).activeDownloads.all (fun e => e.id != i) = true) ∧
    (List.Sublist (removeDownload i st).downloads st.downloads ∧
      List.Sublist (removeDownload i st).activeDownloads st.activeDownloads) ∧
    (∀ e ∈ st.downloads, e.id ≠ i → e ∈ (removeDownload i st).downloads) ∧
    (∀ e ∈ st.activeDownloads, e.id ≠ i → e ∈ (removeDownload i st).activeDownloads) := by
  refine ⟨⟨rfl, ?_⟩, ⟨?_, ?_⟩, ⟨?_, ?_⟩, ⟨?_, ?_⟩, ?_, ?_⟩
  · intro e he
    exact List.mem_cons_of_mem d he
  · exact List.length_map st.downloads _
  · exact List.length_map st.activeDownloads _
  · rw [List.all_eq_true]
    intro e he
    have he2 : e ∈ st.downloads.filter (fun d => d.id != i) := he
    exact (List.mem_filter.mp he2).2
  · rw [List.all_eq_true]
    intro e he
    have he2 : e ∈ st.activeDownloads.filter (fun d => d.id != i) := he
    exact (List.mem_filter.mp he2).2
  · exact List.filter_sublist st.downloads
  · exact List.filter_sublist st.activeDownloads
  · intro e he hne
    exact List.mem_filter.mpr ⟨he, by simpa using hne⟩
  · intro e he hne
    exact List.mem_filter.mpr ⟨he, by simpa using hne⟩

/-- C8 witness: deleting id 7 from the example store keeps the other
entry and leaves no entry with id 7. -/
theorem c8_delete_only_per_item_removal_witness :
    (removeDownload 7 exStore).downloads.all (fun e => e.id != 7) = true ∧
    exCompleted ∈ (removeDownload 7 exStore).downloads :=
  ⟨(c8_delete_only_per_item_removal 7 exStore exCompleted {}).2.2.1.1,
   (c8_delete_only_per_item_removal 7 exStore exCompleted {}).2.2.2.2.1
     exCompleted (by decide) (by decide)⟩

/-- The fields of the updated entry that an update object leaving a
field unnamed must preserve. -/
def keepsUnnamedFields (e e2 : Download) (u : DownloadUpdates) : Prop :=
  (u.id = none → e2.id = e.id) ∧
  (u.status = none → e2.status = e.status) ∧
  (u.progress = none → e2.progress = e.progress) ∧
  (u.error_message = none → e2.error_message = e.error_message) ∧
  (u.title = none → e2.title = e.title) ∧
  (u.speed = none → e2.speed = e.speed) ∧
  (u.eta = none → e2.eta = e.eta) ∧
  (u.file_path = none → e2.file_path = e.file_path)

/-- Positional frame property of the per-entry map of `updateDownload`
on one list. -/
lemma update_list_frame (i : Nat) (u : DownloadUpdates) (l : List Download)
    (k : Nat) (e e2 : Download) (h1 : l.get? k = some e)
    (h2 : (l.map (fun x => if x.id = i then applyUpdates x u else x)).get? k = some e2) :
    (e.id ≠ i → e2 = e) ∧ (e.id = i → keepsUnnamedFields e e2 u) := by
  rw [List.get?_map, h1] at h2
  have he2 : e2 = if e.id = i then applyUpdates e u else e := (Option.some.inj h2).symm
  constructor
  · intro hne
    rw [he2, if_neg hne]
  · intro heq
    rw [he2, if_pos heq]
    refine ⟨?_, ?_, ?_, ?_, ?_, ?_, ?_, ?_⟩ <;>
      (intro hn; simp [applyUpdates, hn])

/-- C9: `updateDownload(id, updates)` is a frame-exact in-place update:
the length of both lists is preserved (no entry added or removed), the
entry at every position keeps its position, an entry whose id differs
from the given id is unchanged, and the matching entry keeps every
field the update object does not name. -/
theorem c9_updateDownload_frame (i : Nat) (u : DownloadUpdates) (st : StoreState) :
    ((updateDownload i u st).downloads.length = st.downloads.length) ∧
    ((updateDownload i u st).activeDownloads.length = st.activeDownloads.length) ∧
    (∀ k e e2, st.downloads.get? k = some e →
      (updateDownload i u st).downloads.get? k = some e2 →
      (e.id ≠ i → e2 = e) ∧ (e.id = i → keepsUnnamedFields e e2 u)) ∧
    (∀ k e e2, st.activeDownloads.get? k = some e →
      (updateDownload i u st).activeDownloads.get? k = some e2 →
      (e.id ≠ i → e2 = e) ∧ (e.id = i → keepsUnnamedFields e e2 u)) := by
  refine ⟨List.length_map _ _, List.length_map _ _, ?_, ?_⟩
  · intro k e e2 h1 h2
    exact update_list_frame i u st.downloads k e e2 h1 h2
  · intro k e e2 h1 h2
    exact update_list_frame i u st.activeDownloads k e e2 h1 h2

/-- C9 witness: applying the cancel update to the example store — the
entry at position 1 (different id) is unchanged, and the matching entry
at position 0 keeps its unnamed fields. -/
theorem c9_updateDownload_frame_witness :
    (updateDownload 7 cancelledUpdate exStore).downloads.length =
      exStore.downloads.length ∧
    ((exFailed.id ≠ 7 → applyUpdates exFailed cancelledUpdate = exFailed) ∧
      (exFailed.id = 7 → keepsUnnamedFields exFailed
        (applyUpdates exFailed cancelledUpdate) cancelledUpdate)) :=
  ⟨(c9_updateDownload_frame 7 cancelledUpdate exStore).1,
   (c9_updateDownload_frame 7 cancelledUpdate exStore).2.2.1 0 exFailed
     (applyUpdates exFailed cancelledUpdate) (by decide) (by decide)⟩

end YTDLNova

namespace YTDLNova

/-- C6: the thumbnail-embed flag applies to audio only — in each of the
three request constructors (single, batch, playlist selection), a
request whose download type is not `audio` carries
`embed_thumbnail = false`, and `embed_thumbnail = true` forces the
download type to be `audio`. -/
theorem c6_thumbnail_audio_only (st : FormState) :
    ((buildSingleRequest st).download_type ≠ "audio" →
      (buildSingleRequest st).embed_thumbnail = false) ∧
    ((buildSingleRequest st).embed_thumbnail = true →
      (buildSingleRequest st).download_type = "audio") ∧
    (∀ u, (buildBatchRequest st u).download_type ≠ "audio" →
      (buildBatchRequest st u).embed_thumbnail = false) ∧
    (∀ u, (buildBatchRequest st u).embed_thumbnail = true →
      (buildBatchRequest st u).download_type = "audio") ∧
    (∀ v, (buildPlaylistRequest st v).download_type ≠ "audio" →
      (buildPlaylistRequest st v).embed_thumbnail = false) ∧
    (∀ v, (buildPlaylistRequest st v).embed_thumbnail = true →
      (buildPlaylistRequest st v).download_type = "audio") := by
  have hsingle_type : (buildSingleRequest st).download_type = jsOr st.downloadType "video" := rfl
  have haudio : st.downloadType = "audio" → jsOr st.downloadType "video" = "audio" := by
    intro h
    rw [h]
    rfl
  refine ⟨?_, ?_, ?_, ?_, ?_, ?_⟩
  · intro hne
    show (if st.downloadType = "audio" then st.embedThumbnail else false) = false
    rw [if_neg]
    intro h
    exact hne (hsingle_type ▸ haudio h)
  · intro htrue
    by_cases h : st.downloadType = "audio"
    · exact hsingle_type ▸ haudio h
    · exact absurd htrue (by simp [buildSingleRequest, h])
  · intro u hne
    show (if st.downloadType = "audio" then st.embedThumbnail else false) = false
    rw [if_neg]
    exact hne
  · intro u htrue
    by_cases h : st.downloadType = "audio"
    · exact h
    · exact absurd htrue (by simp [buildBatchRequest, h])
  · intro v hne
    show (if st.downloadType = "audio" then st.embedThumbnail else false) = false
    rw [if_neg]
    exact hne
  · intro v htrue
    by_cases h : st.downloadType = "audio"
    · exact h
    · exact absurd htrue (by simp [buildPlaylistRequest, h])

/-- C6 witness: a video-mode form state with the thumbnail checkbox on
still produces requests with the flag off. -/
theorem c6_thumbnail_audio_only_witness :
    (buildSingleRequest exFormBad).embed_thumbnail = false ∧
    (buildBatchRequest exFormBad "https://x.test/a").embed_thumbnail = false ∧
    (buildPlaylistRequest exFormBad "https://x.test/b").embed_thumbnail = false :=
  ⟨(c6_thumbnail_audio_only exFormBad).1 (by decide),
   (c6_thumbnail_audio_only exFormBad).2.2.1 "https://x.test/a" (by decide),
   (c6_thumbnail_audio_only exFormBad).2.2.2.2.1 "https://x.test/b" (by decide)⟩

end YTDLNova

namespace YTDLNova

/-- The closed quality whitelist reachable through the UI: the union of
the form Quality select and the SettingsPage Default Video Quality
select. -/
def qualityWhitelist : List String := ["best", "1080p", "720p", "480p", "360p"]

/-- The closed video-format whitelist reachable through the UI: the
form Format select in video mode (a superset of the SettingsPage
video-format select). -/
def videoFormatWhitelist : List String :=
  ["mp4", "webm", "mkv", "mov", "avi", "wmv", "ogv"]

/-- The closed audio-format whitelist reachable through the UI: the
union of the form Format select in audio mode and the SettingsPage
audio-format select. -/
def audioFormatWhitelist : List String := ["m4a", "mp3", "opus", "vorbis"]

/-- The whitelist applicable to a request's kind. -/
def formatWhitelistFor (t : String) : List String :=
  if t = "audio" then audioFormatWhitelist else videoFormatWhitelist

/-- What C5 requires of one constructed request: quality from the
closed whitelist, format from the whitelist of its kind, and in
particular never the free-form strings of the spec example. -/
def reqOk (r : DownloadRequest) : Prop :=
  r.quality ∈ qualityWhitelist ∧ r.format ∈ formatWhitelistFor r.download_type ∧
  r.quality ≠ "9999p" ∧ r.format ≠ "exe"

/-- The SettingsPage quality options are inside the quality
whitelist. -/
lemma settingsQuality_sub : ∀ x ∈ settingsQualityOptions, x ∈ qualityWhitelist := by
  decide

/-- The SettingsPage video-format options are inside the video-format
whitelist. -/
lemma settingsVideoFormat_sub :
    ∀ x ∈ settingsVideoFormatOptions, x ∈ videoFormatWhitelist := by
  decide

/-- The SettingsPage audio-format options are inside the audio-format
whitelist. -/
lemma settingsAudioFormat_sub :
    ∀ x ∈ settingsAudioFormatOptions, x ∈ audioFormatWhitelist := by
  decide

/-- The form quality options are inside the quality whitelist. -/
lemma formQuality_sub : ∀ x ∈ formQualityOptions, x ∈ qualityWhitelist := by
  decide

/-- The form audio-format options are inside the audio-format
whitelist. -/
lemma formAudioFormat_sub :
    ∀ x ∈ formAudioFormatOptions, x ∈ audioFormatWhitelist := by
  decide

/-- No whitelisted quality is the free-form spec example string. -/
lemma qualityWhitelist_ne : ∀ x ∈ qualityWhitelist, x ≠ "9999p" := by
  decide

/-- No whitelisted video format is the free-form spec example
string. -/
lemma videoFormatWhitelist_ne : ∀ x ∈ videoFormatWhitelist, x ≠ "exe" := by
  decide

/-- No whitelisted audio format is the free-form spec example
string. -/
lemma audioFormatWhitelist_ne : ∀ x ∈ audioFormatWhitelist, x ≠ "exe" := by
  decide

/-- A JavaScript or-else of two whitelist members stays in the
whitelist. -/
lemma jsOr_mem {a b : String} {l : List String} (ha : a ∈ l) (hb : b ∈ l) :
    jsOr a b ∈ l := by
  unfold jsOr
  split
  · exact hb
  · exact ha

/-- Every settings state reachable through the settings UI keeps each
field inside its select's option list. -/
lemma settings_reachable_inv {s : SettingsState} (h : SettingsReachable s) :
    s.defaultDownloadType ∈ settingsTypeOptions ∧
    s.defaultQuality ∈ settingsQualityOptions ∧
    s.defaultVideoFormat ∈ settingsVideoFormatOptions ∧
    s.defaultAudioFormat ∈ settingsAudioFormatOptions := by
  induction h with
  | init => exact ⟨by decide, by decide, by decide, by decide⟩
  | setDefaultDownloadType _ hm ih => exact ⟨hm, ih.2.1, ih.2.2.1, ih.2.2.2⟩
  | setDefaultQuality _ hm ih => exact ⟨ih.1, hm, ih.2.2.1, ih.2.2.2⟩
  | setDefaultVideoFormat _ hm ih => exact ⟨ih.1, ih.2.1, hm, ih.2.2.2⟩
  | setDefaultAudioFormat _ hm ih => exact ⟨ih.1, ih.2.1, ih.2.2.1, hm⟩
  | setEmbedThumbnail b _ ih => exact ih
  | reset _ _ => exact ⟨by decide, by decide, by decide, by decide⟩

/-- Every form state reachable through the download UI keeps its type,
quality and formats inside the closed whitelists. -/
lemma form_reachable_inv {st : FormState} (h : FormReachable st) :
    st.downloadType ∈ formTypeOptions ∧ st.quality ∈ qualityWhitelist ∧
    st.videoFormat ∈ videoFormatWhitelist ∧ st.audioFormat ∈ audioFormatWhitelist := by
  induction h with
  | init hs =>
    obtain ⟨h1, h2, h3, h4⟩ := settings_reachable_inv hs
    refine ⟨?_, ?_, ?_, ?_⟩
    · exact jsOr_mem h1 (by decide)
    · exact jsOr_mem (settingsQuality_sub _ h2) (by decide)
    · exact jsOr_mem (settingsVideoFormat_sub _ h3) (by decide)
    · exact jsOr_mem (settingsAudioFormat_sub _ h4) (by decide)
  | setUrl u _ ih => exact ih
  | setDownloadType _ hm ih => exact ⟨hm, ih.2⟩
  | setQuality _ hm ih => exact ⟨ih.1, formQuality_sub _ hm, ih.2.2⟩
  | setVideoFormat _ hm ih => exact ⟨ih.1, ih.2.1, hm, ih.2.2.2⟩
  | setAudioFormat _ hm ih => exact ⟨ih.1, ih.2.1, ih.2.2.1, formAudioFormat_sub _ hm⟩
  | setEmbedThumbnail b _ ih => exact ih

/-- A format from either whitelist is never the free-form string of the
spec example. -/
lemma format_mem_ne {t f : String} (hf : f ∈ formatWhitelistFor t) : f ≠ "exe" := by
  unfold formatWhitelistFor at hf
  split at hf
  · exact audioFormatWhitelist_ne f hf
  · exact videoFormatWhitelist_ne f hf

end YTDLNova

namespace YTDLNova

/-- A request whose quality and kind-specific format are whitelisted
satisfies the C5 requirement. -/
lemma reqOk_of_fields {r : DownloadRequest} (hq : r.quality ∈ qualityWhitelist)
    (hf : r.format ∈ formatWhitelistFor r.download_type) : reqOk r :=
  ⟨hq, hf, qualityWhitelist_ne _ hq, format_mem_ne hf⟩

/-- C5: on every form state reachable through the UI — including the
initial state restored from persisted settings defaults — the
constructed single, batch and playlist-selection requests carry a
quality from the closed whitelist and a format from the closed
whitelist of their kind; in particular quality `9999p` and format `exe`
never appear. -/
theorem c5_whitelist_enforcement (st : FormState) (h : FormReachable st) :
    reqOk (buildSingleRequest st) ∧ (∀ u, reqOk (buildBatchRequest st u)) ∧
    (∀ v, reqOk (buildPlaylistRequest st v)) := by
  obtain ⟨ht, hq, hv, ha⟩ := form_reachable_inv h
  have hfmt : (if st.downloadType = "audio" then st.audioFormat else st.videoFormat) ∈
      formatWhitelistFor st.downloadType := by
    by_cases hc : st.downloadType = "audio"
    · rw [if_pos hc]
      unfold formatWhitelistFor
      rw [if_pos hc]
      exact ha
    · rw [if_neg hc]
      unfold formatWhitelistFor
      rw [if_neg hc]
      exact hv
  have htype : jsOr st.downloadType "video" = st.downloadType := by
    rcases (by simpa [formTypeOptions] using ht :
        st.downloadType = "video" ∨ st.downloadType = "audio") with h1 | h1 <;>
      rw [h1] <;> decide
  have hsingle_fmt : (buildSingleRequest st).format ∈
      formatWhitelistFor (buildSingleRequest st).download_type := by
    show jsOr (if st.downloadType = "audio" then st.audioFormat else st.videoFormat)
        (if st.downloadType = "audio" then "m4a" else "mp4") ∈
        formatWhitelistFor (jsOr st.downloadType "video")
    rw [htype]
    by_cases hc : st.downloadType = "audio"
    · rw [if_pos hc, if_pos hc, hc]
      unfold formatWhitelistFor
      rw [if_pos rfl]
      exact jsOr_mem ha (by decide)
    · rw [if_neg hc, if_neg hc]
      unfold formatWhitelistFor
      rw [if_neg hc]
      exact jsOr_mem hv (by decide)
  exact ⟨reqOk_of_fields (jsOr_mem hq (by decide)) hsingle_fmt,
    fun u => reqOk_of_fields hq hfmt,
    fun v => reqOk_of_fields hq hfmt⟩

/-- C5 witness: the initial form state restored from the default
persisted settings produces whitelisted requests. -/
theorem c5_whitelist_enforcement_witness :
    reqOk (buildSingleRequest (initForm defaultSettings)) ∧
    reqOk (buildBatchRequest (initForm defaultSettings) "https://x.test/a") :=
  ⟨(c5_whitelist_enforcement _ (FormReachable.init SettingsReachable.init)).1,
   (c5_whitelist_enforcement _ (FormReachable.init SettingsReachable.init)).2.1 _⟩

end YTDLNova

namespace YTDLNova

/-- The delay computed in the interceptor retry branch equals the
backoff base unless the Retry-After header reads as a positive
integer, in which case that many seconds. -/
lemma delay_eq_retryAfter (resp : ErrResponse) (base : Nat) :
    (match resp.retryAfterHeader with
     | none => base
     | some h =>
       if h = "" then base
       else
         match parseIntJS h with
         | none => base
         | some ra => if 0 < ra then ra.toNat * 1000 else base) =
    (match retryAfterValue resp with
     | none => base
     | some ra => ra * 1000) := by
  unfold retryAfterValue
  cases resp.retryAfterHeader with
  | none => rfl
  | some hdr =>
    by_cases hne : hdr = ""
    · subst hne
      rfl
    · cases hp : parseIntJS hdr with
      | none => simp [hne, hp]
      | some ra0 =>
        by_cases hpos : 0 < ra0
        · simp [hne, hp, hpos]
        · simp [hne, hp, hpos]

/-- Inversion of the interceptor retry branch: a retry decision forces
a present config and response, status 429, retry budget not exhausted,
the incremented retry count, and the delay: the exponential backoff
base or the positive-integer Retry-After override, plus the jitter. -/
lemma handleResponseError_retry_inv {e : AxiosError} {j rc2 dl : Nat}
    (h : handleResponseError e j = ErrDecision.retry rc2 dl) :
    ∃ cfg resp, e.config = some cfg ∧ e.response = some resp ∧
      resp.status = 429 ∧ cfg.retryCount.getD 0 < 3 ∧
      rc2 = cfg.retryCount.getD 0 + 1 ∧
      ((retryAfterValue resp = none → dl = 1000 * 2 ^ (rc2 - 1) + j) ∧
       (∀ ra, retryAfterValue resp = some ra → dl = ra * 1000 + j)) := by
  obtain ⟨cfg, resp⟩ := e
  cases cfg with
  | none => exact absurd h (by simp [handleResponseError])
  | some cfg =>
    cases resp with
    | none => exact absurd h (by simp [handleResponseError])
    | some resp =>
      unfold handleResponseError at h
      simp only at h
      split at h
      · rename_i hcond
        refine ⟨cfg, resp, rfl, rfl, hcond.1, hcond.2, ?_⟩
        injection h with h1 h2
        subst h1
        subst h2
        refine ⟨rfl, ?_⟩
        rw [delay_eq_retryAfter]
        constructor
        · intro hnone
          rw [hnone]
        · intro ra hra
          rw [hra]
      · exact absurd h (by simp)

/-- The interceptor rejects whenever the status is not 429. -/
lemma handleResponseError_reject_of_not429 (e : AxiosError) (j : Nat)
    (h : ∀ resp, e.response = some resp → resp.status ≠ 429) :
    handleResponseError e j = ErrDecision.reject := by
  obtain ⟨cfg, resp⟩ := e
  cases cfg with
  | none => rfl
  | some cfg =>
    cases resp with
    | none => rfl
    | some resp =>
      unfold handleResponseError
      simp only
      rw [if_neg]
      intro hcond
      exact h resp rfl hcond.1

/-- The attempt counter is bounded by one plus the remaining retry
budget. -/
lemma runAttempts_le (errs : List (ErrResponse × Nat)) :
    ∀ rc, runAttempts rc errs ≤ 1 + (3 - rc) := by
  induction errs with
  | nil =>
    intro rc
    simp [runAttempts]
  | cons p rest ih =>
    intro rc
    obtain ⟨resp, j⟩ := p
    show (match handleResponseError ⟨some ⟨some rc⟩, some resp⟩ j with
      | .retry rc2 _ => 1 + runAttempts rc2 rest
      | .reject => 1) ≤ 1 + (3 - rc)
    cases hd : handleResponseError ⟨some ⟨some rc⟩, some resp⟩ j with
    | retry rc2 dl =>
      obtain ⟨cfg, r2, hc, hr, _, hlt, hrc2, _⟩ := handleResponseError_retry_inv hd
      cases hc
      cases hr
      have hrc : rc < 3 := by simpa using hlt
      have hrc2e : rc2 = rc + 1 := by simpa using hrc2
      subst hrc2e
      have hrest := ih (rc + 1)
      show 1 + runAttempts (rc + 1) rest ≤ 1 + (3 - rc)
      omega
    | reject =>
      show 1 ≤ 1 + (3 - rc)
      omega

end YTDLNova

namespace YTDLNova

/-- C10: the API client re-issues a request only on HTTP 429 — a retry
decision forces a present response with status 429 and an unexhausted
budget of 3 retries, so the total number of attempts is at most 4; the
k-th retry waits `1000 * 2 ^ (k - 1)` milliseconds plus jitter unless a
positive-integer Retry-After header overrides the delay with that many
seconds; and every error whose status is not 429 is rejected to the
caller with no retry. -/
theorem c10_retry_policy :
    (∀ errs : List (ErrResponse × Nat), runAttempts 0 errs ≤ 4) ∧
    (∀ (e : AxiosError) (j rc2 dl : Nat),
      handleResponseError e j = ErrDecision.retry rc2 dl →
      ∃ cfg resp, e.config = some cfg ∧ e.response = some resp ∧
        resp.status = 429 ∧ cfg.retryCount.getD 0 < 3 ∧
        rc2 = cfg.retryCount.getD 0 + 1 ∧
        ((retryAfterValue resp = none → dl = 1000 * 2 ^ (rc2 - 1) + j) ∧
         (∀ ra, retryAfterValue resp = some ra → dl = ra * 1000 + j))) ∧
    (∀ (e : AxiosError) (j : Nat),
      (∀ resp, e.response = some resp → resp.status ≠ 429) →
      handleResponseError e j = ErrDecision.reject) := by
  refine ⟨?_, ?_, ?_⟩
  · intro errs
    exact le_trans (runAttempts_le errs 0) (by norm_num)
  · intro e j rc2 dl h
    exact handleResponseError_retry_inv h
  · intro e j h
    exact handleResponseError_reject_of_not429 e j h

/-- C10 witness: a stream of five consecutive 429 errors still yields
at most 4 attempts; a concrete first 429 with no Retry-After header is
retried after 1000 ms plus the 5 ms jitter; and a 500 error is
rejected without retry. -/
theorem c10_retry_policy_witness :
    runAttempts 0 [(⟨429, none⟩, 0), (⟨429, none⟩, 0), (⟨429, none⟩, 0),
      (⟨429, none⟩, 0), (⟨429, none⟩, 0)] ≤ 4 ∧
    (∃ cfg resp, (⟨some ⟨some 0⟩, some ⟨429, none⟩⟩ : AxiosError).config = some cfg ∧
      (⟨some ⟨some 0⟩, some ⟨429, none⟩⟩ : AxiosError).response = some resp ∧
      resp.status = 429 ∧ cfg.retryCount.getD 0 < 3 ∧
      (1 : Nat) = cfg.retryCount.getD 0 + 1 ∧
      ((retryAfterValue resp = none → (1005 : Nat) = 1000 * 2 ^ (1 - 1) + 5) ∧
       (∀ ra, retryAfterValue resp = some ra → (1005 : Nat) = ra * 1000 + 5))) ∧
    handleResponseError ⟨some ⟨some 0⟩, some ⟨500, none⟩⟩ 0 = ErrDecision.reject :=
  ⟨c10_retry_policy.1 _,
   c10_retry_policy.2.1 ⟨some ⟨some 0⟩, some ⟨429, none⟩⟩ 5 1 1005 (by decide),
   c10_retry_policy.2.2 ⟨some ⟨some 0⟩, some ⟨500, none⟩⟩ 0
     (fun resp hr => by
       injection hr with h2
       rw [← h2]
       decide)⟩

end YTDLNova
